import Mathlib

/-!
# streamdeck-voicemeeter: the plugin facade, the mixer adapter and the poll timer

A shallow embedding of `Sources/MyStreamDeckPlugin.cpp` and
`Sources/Windows/VoiceMeeterHelper.cpp`.

* The plugin object is the pair of its two members that the handlers read:
  `mVisibleContexts` (the registry) and whether `mConnectionManager` is non-null.
* The Voicemeeter remote library is an external process; it is modelled as a store of
  the `Strip[n].Mute` parameters together with its one-shot dirty flag.  Parameter values
  are rationals: `float` arithmetic is idealised to exact arithmetic.
* Every call that leaves the plugin (towards the host connection or towards the mixer)
  is recorded, in program order, in a list of `Call`s.
* Mutex lock/unlock pairs are not modelled: each handler is one atomic step.
-/

namespace StreamDeckVoiceMeeter

/-! ## JSON payloads -/

/-- A JSON value, as the host delivers it in a payload.  An `int` member holds a value of
the C type `int`, the type in which the handlers receive it. -/
inductive Json where
  | null
  | bool (b : Bool)
  | int (n : Int)
  | float (q : ℚ)
  | str (s : String)
  | arr (items : List Json)
  | obj (fields : List (String × Json))

/-- Member lookup `json::find(name)`: the first member of that name of an object, nothing
for any other kind of value. -/
def Json.find : Json → String → Option Json
  | .obj fields, inName => List.lookup inName fields
  | _, _ => none

/-- Modelled from the spec: `EPLJSONUtils::GetObjectByName` (Common/EPLJSONUtils), the
payload accessor that yields the named member when it is present and is an object
("from settings payload ... if absent"); `none` stands for the `false` return. -/
def GetObjectByName (inJSON : Json) (inName : String) : Option Json :=
  match inJSON.find inName with
  | some (.obj fields) => some (.obj fields)
  | _ => none

/-- Modelled from the spec: `EPLJSONUtils::GetIntByName` (Common/EPLJSONUtils), the
payload accessor that yields the named member when it is present and is an integer, and
the default otherwise ("default channel = 0 if absent", "negative or malformed"). -/
def GetIntByName (inJSON : Json) (inName : String) (defaultValue : Int) : Int :=
  match inJSON.find inName with
  | some (.int n) => n
  | _ => defaultValue

/-- Modelled from the spec: `EPLJSONUtils::GetBoolByName` (Common/EPLJSONUtils), the
payload accessor that yields the named member when it is present and is a boolean, and
the default otherwise ("a request flag in the payload"). -/
def GetBoolByName (inJSON : Json) (inName : String) (defaultValue : Bool) : Bool :=
  match inJSON.find inName with
  | some (.bool b) => b
  | _ => defaultValue

/-! ## The registry `mVisibleContexts` -/

/-- Modelled from the spec: the type `Settings` declared in MyStreamDeckPlugin.h,
"InstanceConfig: { channelNumber: integer }"; the handlers build it with
`Settings(stripNumber)` and read and write its member `mStripNumber`. -/
structure Settings where
  mStripNumber : Int
deriving DecidableEq, Repr

/-- Modelled from the spec: the member `mVisibleContexts` declared in MyStreamDeckPlugin.h,
"a mapping from InstanceId to InstanceConfig".  The handlers call `at(key)`,
`insert(std::pair(key, value))` and `erase(key)` on it and iterate over its pairs: it is a
standard associative container with one element per key, and these calls have the
meaning the C++ standard gives them.  The entries are listed in order of insertion; no
theorem depends on the order of iteration. -/
structure Registry where
  entries : List (String × Settings)
  nodup : (entries.map Prod.fst).Nodup

namespace Registry

/-- The empty container of a freshly constructed plugin. -/
def empty : Registry := ⟨[], List.nodup_nil⟩

/-- The keys present. -/
def keys (r : Registry) : List String := r.entries.map Prod.fst

/-- Lookup `mVisibleContexts.at(key)`; `none` stands for the `std::out_of_range` exception,
which every caller catches with `catch (...)`. -/
def atKey (r : Registry) (key : String) : Option Settings :=
  List.lookup key r.entries

/-- Insertion `mVisibleContexts.insert(std::pair(key, value))`, as for `std::map::insert`
and `std::unordered_map::insert`: the pair is added when no element with that key
exists; an existing element is left as it is. -/
def insert (r : Registry) (key : String) (value : Settings) : Registry :=
  if h : key ∈ r.entries.map Prod.fst then r
  else
    ⟨r.entries ++ [(key, value)], by
      rw [List.map_append, List.nodup_append]
      refine ⟨r.nodup, List.nodup_singleton _, ?_⟩
      intro a ha hb
      simp only [List.map_cons, List.map_nil, List.mem_singleton] at hb
      exact h (hb ▸ ha)⟩

/-- Removal `mVisibleContexts.erase(key)`: no-op when the key is absent. -/
def erase (r : Registry) (key : String) : Registry :=
  ⟨r.entries.filter (fun e => e.1 != key),
    r.nodup.sublist ((List.filter_sublist r.entries).map Prod.fst)⟩

/-- Assignment through the reference obtained from `at`:
`setting = &mVisibleContexts.at(key); setting->mStripNumber = stripNumber`.  Only the
element of that key changes (callers reach it only when `at` did not throw). -/
def assign (r : Registry) (key : String) (stripNumber : Int) : Registry :=
  ⟨r.entries.map (fun e => if e.1 == key then (e.1, Settings.mk stripNumber) else e), by
    have hfst : (Prod.fst ∘ fun e : String × Settings =>
        if e.1 == key then (e.1, Settings.mk stripNumber) else e) = Prod.fst := by
      funext e
      by_cases hk : e.1 = key <;> simp [hk]
    rw [List.map_map, hfst]
    exact r.nodup⟩

end Registry

/-! ## The mixer behind `VoiceMeeterHelper` -/

/-- Modelled from the spec: the mixer collaborator, "get/set float parameter by string key
formatted as `Strip[<n>].Mute`" and a dirty flag; the state is the value of the parameter
`Strip[n].Mute` for each strip number `n`, and the flag that `VBVMR_IsParametersDirty`
reports.  Reads and writes of parameters succeed. -/
structure VoiceMeeter where
  stripMute : Int → ℚ
  dirty : Bool

/-- Modelled from the spec: the target argument of `setImage(imageData, instanceId, target)`,
the enumeration `ESDSDKTarget` of Common/ESDSDKDefines.h; the refresh always passes
`kESDSDKTarget_HardwareAndSoftware`. -/
inductive ESDSDKTarget where
  | kESDSDKTarget_HardwareAndSoftware
  | kESDSDKTarget_HardwareOnly
  | kESDSDKTarget_SoftwareOnly
deriving DecidableEq, Repr

/-- A call that leaves the plugin: the three `ESDConnectionManager` methods used and the
three `iVMR` entry points used (the parameter name `Strip[n].Mute`, formatted by
`sprintf_s`, is represented by `n`). -/
inductive Call where
  | SetImage (inBase64ImageString : String) (inContext : String) (inTarget : ESDSDKTarget)
  | SendToPropertyInspector (inAction : String) (inContext : String) (inPayload : Json)
  | SetSettings (inSettings : Json) (inContext : String)
  | VBVMR_IsParametersDirty
  | VBVMR_GetParameterFloat (strip : Int)
  | VBVMR_SetParameterFloat (strip : Int) (value : ℚ)

/-- Modelled from the spec: `VBVMR_IsParametersDirty` of the remote library, "returns
whether mixer parameters changed since the last check; side-effecting (consumes the
dirty flag)". -/
def VBVMR_IsParametersDirty (vm : VoiceMeeter) : Bool × VoiceMeeter :=
  (vm.dirty, { vm with dirty := false })

/-- Modelled from the spec: `VBVMR_SetParameterFloat` of the remote library, a successful
write of one parameter; the parameters have then changed since the last check. -/
def VBVMR_SetParameterFloat (vm : VoiceMeeter) (strip : Int) (value : ℚ) : VoiceMeeter :=
  { stripMute := fun n => if n = strip then value else vm.stripMute n, dirty := true }

/-- The poll `VoiceMeeterHelper::Poll`. -/
def Poll (vm : VoiceMeeter) : (Bool × VoiceMeeter) × List Call :=
  (VBVMR_IsParametersDirty vm, [Call.VBVMR_IsParametersDirty])

/-- The read `VoiceMeeterHelper::GetMute`: a successful read of `Strip[stripNumber].Mute`;
the mixer is not changed. -/
def GetMute (vm : VoiceMeeter) (stripNumber : Int) : ℚ × List Call :=
  (vm.stripMute stripNumber, [Call.VBVMR_GetParameterFloat stripNumber])

/-- The toggle `VoiceMeeterHelper::ToggleMute`: read the old value, write `1.0f - oldValue`
to the same parameter. -/
def ToggleMute (vm : VoiceMeeter) (stripNumber : Int) : VoiceMeeter × List Call :=
  let oldValue := GetMute vm stripNumber
  (VBVMR_SetParameterFloat vm stripNumber (1 - oldValue.1),
    oldValue.2 ++ [Call.VBVMR_SetParameterFloat stripNumber (1 - oldValue.1)])

/-! ## The plugin facade `MyStreamDeckPlugin` -/

/-- The members of the plugin object that its handlers read and write:
`mVisibleContexts`, and whether `mConnectionManager` is non-null. -/
structure MyStreamDeckPlugin where
  mVisibleContexts : Registry
  mConnectionManager : Bool

/-- What a handler leaves behind: the plugin, the mixer, and the calls it made, in order. -/
structure Outcome where
  plugin : MyStreamDeckPlugin
  mixer : VoiceMeeter
  calls : List Call

/-- The image literal sent when `GetMute(...) < 0.5f`. -/
def kImageBelowHalf : String :=
  "data:image/png;base64,iVBORw0KGgoAAAANSUhEUgAAAEgAAABICAIAAADajyQQAAAACXBIWXMAAAsTAAALEwEAmpwYAAAAB3RJTUUH4wEMACUU2ZtRHgAAAB1pVFh0Q29tbWVudAAAAAAAQ3JlYXRlZCB3aXRoIEdJTVBkLmUHAAAAWElEQVRo3u3PAREAAAQEsKd/Z3JwW4NVJi91IiYmJiYmJiYmJiYmJiYmJiYmJiYmJiYmJiYmJiYmJiYmJiYmJiYmJiYmJiYmJiYmJiYmJiYmJiYmJiZ20wI01AGPvGUuRAAAAABJRU5ErkJggg=="

/-- The image literal sent otherwise (`GetMute(...) >= 0.5f`). -/
def kImageAtLeastHalf : String :=
  "data:image/png;base64,iVBORw0KGgoAAAANSUhEUgAAAEgAAABICAIAAADajyQQAAAACXBIWXMAAAsTAAALEwEAmpwYAAAAB3RJTUUH4wEMACcsw6+LAgAAAB1pVFh0Q29tbWVudAAAAAAAQ3JlYXRlZCB3aXRoIEdJTVBkLmUHAAAAV0lEQVRo3u3PAREAAAQEsKd/Z3JwW4PV5KeOmJiYmJiYmJiYmJiYmJiYmJiYmJiYmJiYmJiYmJiYmJiYmJiYmJiYmJiYmJiYmJiYmJiYmJiYmJiYmNhRCzXTAY8v69aFAAAAAElFTkSuQmCC"

/-- One iteration of the loop of `UpdateTimer` over `mVisibleContexts`: read the mute
value of the context's strip and send one of the two images to that context. -/
def updateContext (vm : VoiceMeeter) (context : String × Settings) : List Call :=
  let isMuted := GetMute vm context.2.mStripNumber
  isMuted.2 ++
    [if isMuted.1 < 1 / 2 then
      Call.SetImage kImageBelowHalf context.1 ESDSDKTarget.kESDSDKTarget_HardwareAndSoftware
    else
      Call.SetImage kImageAtLeastHalf context.1 ESDSDKTarget.kESDSDKTarget_HardwareAndSoftware]

/-- The refresh `MyStreamDeckPlugin::UpdateTimer(force)`.  `force == false && Poll() == false`
evaluates `Poll()` only when `force` is false. -/
def UpdateTimer (p : MyStreamDeckPlugin) (vm : VoiceMeeter) (force : Bool) : Outcome :=
  if p.mConnectionManager then
    if force == false then
      let polled := Poll vm
      if polled.1.1 == false then
        ⟨p, polled.1.2, polled.2⟩
      else
        ⟨p, polled.1.2, polled.2 ++ p.mVisibleContexts.entries.flatMap (updateContext polled.1.2)⟩
    else
      ⟨p, vm, p.mVisibleContexts.entries.flatMap (updateContext vm)⟩
  else
    ⟨p, vm, []⟩

/-- The handler `MyStreamDeckPlugin::KeyDownForAction`: nothing to do. -/
def KeyDownForAction (p : MyStreamDeckPlugin) (vm : VoiceMeeter)
    (_inAction _inContext : String) (_inPayload : Json) (_inDeviceID : String) : Outcome :=
  ⟨p, vm, []⟩

/-- The handler `MyStreamDeckPlugin::KeyUpForAction`: toggle the mute of the strip of the
context; when `at` throws, the exception is swallowed by `catch (...)`. -/
def KeyUpForAction (p : MyStreamDeckPlugin) (vm : VoiceMeeter)
    (_inAction inContext : String) (_inPayload : Json) (_inDeviceID : String) : Outcome :=
  match p.mVisibleContexts.atKey inContext with
  | some setting =>
    let toggled := ToggleMute vm setting.mStripNumber
    ⟨p, toggled.1, toggled.2⟩
  | none => ⟨p, vm, []⟩

/-- The handler `MyStreamDeckPlugin::WillAppearForAction`. -/
def WillAppearForAction (p : MyStreamDeckPlugin) (vm : VoiceMeeter)
    (inAction inContext : String) (inPayload : Json) (_inDeviceID : String) : Outcome :=
  let fromSettings : Int × List Call :=
    match GetObjectByName inPayload "settings" with
    | some settingsPayload =>
      (GetIntByName settingsPayload "strip_number" 0,
        if p.mConnectionManager then
          [Call.SendToPropertyInspector inAction inContext settingsPayload]
        else [])
    | none => (0, [])
  let stripNumber := fromSettings.1
  let p1 : MyStreamDeckPlugin :=
    { p with mVisibleContexts := p.mVisibleContexts.insert inContext (Settings.mk stripNumber) }
  let refreshed := UpdateTimer p1 vm true
  ⟨refreshed.plugin, refreshed.mixer, fromSettings.2 ++ refreshed.calls⟩

/-- The handler `MyStreamDeckPlugin::WillDisappearForAction`. -/
def WillDisappearForAction (p : MyStreamDeckPlugin) (vm : VoiceMeeter)
    (_inAction inContext : String) (_inPayload : Json) (_inDeviceID : String) : Outcome :=
  ⟨{ p with mVisibleContexts := p.mVisibleContexts.erase inContext }, vm, []⟩

/-- The handler `MyStreamDeckPlugin::SendToPlugin`. -/
def SendToPlugin (p : MyStreamDeckPlugin) (vm : VoiceMeeter)
    (inAction inContext : String) (inPayload : Json) (_inDeviceID : String) : Outcome :=
  if GetBoolByName inPayload "DATAREQUEST" false then
    if p.mConnectionManager == false then
      ⟨p, vm, []⟩
    else
      match p.mVisibleContexts.atKey inContext with
      | some setting =>
        ⟨p, vm, [Call.SendToPropertyInspector inAction inContext
          (Json.obj [("strip_number", Json.int setting.mStripNumber)])]⟩
      | none => ⟨p, vm, []⟩
  else
    let stripNumber := GetIntByName inPayload "strip_number" (-1)
    if stripNumber < 0 then
      ⟨p, vm, []⟩
    else
      let persisted : List Call :=
        if p.mConnectionManager then [Call.SetSettings inPayload inContext] else []
      match p.mVisibleContexts.atKey inContext with
      | none => ⟨p, vm, persisted⟩
      | some _ =>
        let p1 : MyStreamDeckPlugin :=
          { p with mVisibleContexts := p.mVisibleContexts.assign inContext stripNumber }
        let refreshed := UpdateTimer p1 vm true
        ⟨refreshed.plugin, refreshed.mixer, persisted ++ refreshed.calls⟩

/-! ## Sequences of host events -/

/-- An event delivered by the host to the plugin, with the arguments of its handler. -/
inductive HostEvent where
  | WillAppear (inAction inContext : String) (inPayload : Json) (inDeviceID : String)
  | WillDisappear (inAction inContext : String) (inPayload : Json) (inDeviceID : String)
  | KeyDown (inAction inContext : String) (inPayload : Json) (inDeviceID : String)
  | KeyUp (inAction inContext : String) (inPayload : Json) (inDeviceID : String)
  | SendToPlugin (inAction inContext : String) (inPayload : Json) (inDeviceID : String)

/-- Dispatch of one host event to its handler. -/
def HostEvent.handle (p : MyStreamDeckPlugin) (vm : VoiceMeeter) : HostEvent → Outcome
  | .WillAppear a c j d => WillAppearForAction p vm a c j d
  | .WillDisappear a c j d => WillDisappearForAction p vm a c j d
  | .KeyDown a c j d => KeyDownForAction p vm a c j d
  | .KeyUp a c j d => KeyUpForAction p vm a c j d
  | .SendToPlugin a c j d => StreamDeckVoiceMeeter.SendToPlugin p vm a c j d

/-- The events of a list handled one after the other, oldest first. -/
def runEvents (p : MyStreamDeckPlugin) (vm : VoiceMeeter) : List HostEvent → Outcome
  | [] => ⟨p, vm, []⟩
  | e :: es =>
    let first := e.handle p vm
    let rest := runEvents first.plugin first.mixer es
    ⟨rest.plugin, rest.mixer, first.calls ++ rest.calls⟩

/-- The visibility an event announces for `inContext`: `some true` for its will-appear,
`some false` for its will-disappear, nothing for every other event. -/
def HostEvent.lifecycleOf (inContext : String) : HostEvent → Option Bool
  | .WillAppear _ c _ _ => if c = inContext then some true else none
  | .WillDisappear _ c _ _ => if c = inContext then some false else none
  | _ => none

/-- Whether the most recent will-appear / will-disappear event for `inContext` in the list
(oldest first) is a will-appear; `false` when the list has no such event. -/
def lastWasWillAppear (inContext : String) (events : List HostEvent) : Bool :=
  (events.filterMap (HostEvent.lifecycleOf inContext)).getLast? == some true

/-! ## Reading a list of calls -/

/-- The image updates among the calls, as (context, image) pairs, in order. -/
def imageUpdates (calls : List Call) : List (String × String) :=
  calls.filterMap (fun c =>
    match c with
    | .SetImage image context _ => some (context, image)
    | _ => none)

/-- Whether a call consumes the dirty flag or writes a parameter. -/
def Call.changesMixer : Call → Bool
  | .VBVMR_IsParametersDirty => true
  | .VBVMR_SetParameterFloat _ _ => true
  | _ => false

/-- Whether a call is a write to host-side settings storage. -/
def Call.isSetSettings : Call → Bool
  | .SetSettings _ _ => true
  | _ => false

/-! ## The poll timer `CallBackTimer`

The timer is driven by one controlling thread (calls of `start` and `stop`) while the
loop threads it launched run on their own.  A loop thread is either at its `while` test
or inside the body (`func()` followed by the sleep).  The scheduler is modelled by
explicit `step` actions of a loop thread, interleaved freely with the calls of the
controlling thread.
-/

/-- Where a loop thread stands. -/
inductive LoopPc where
  | atTest
  | inBody
deriving DecidableEq, Repr

/-- A loop thread that was launched and has not returned yet. -/
structure PollLoop where
  id : Nat
  pc : LoopPc
deriving DecidableEq, Repr

/-- The timer object together with the threads it launched: the atomic `_execute`, the
thread `_thd` refers to while it is joinable, the live loop threads, the number of
threads launched so far, the number of calls of `func` so far, whether `std::terminate`
was reached by assigning to a joinable `std::thread`, and whether a `join` was reached
that cannot return. -/
structure CallBackTimer where
  _execute : Bool
  _thd : Option Nat
  loops : List PollLoop
  launched : Nat
  invocations : Nat
  terminated : Bool
  blocked : Bool
deriving DecidableEq, Repr

namespace CallBackTimer

/-- The constructor `CallBackTimer() : _execute(false)`, with a default `_thd`. -/
def fresh : CallBackTimer :=
  { _execute := false, _thd := none, loops := [], launched := 0, invocations := 0,
    terminated := false, blocked := false }

/-- One step of loop thread `t`: at the test `while (_execute.load(...))` it enters the body
and calls `func`, or returns when the flag is false; from the body it comes back to the
test.  A thread that is not live does nothing. -/
def step (s : CallBackTimer) (t : Nat) : CallBackTimer :=
  match s.loops.find? (fun l => l.id == t) with
  | none => s
  | some l =>
    match l.pc with
    | .atTest =>
      if s._execute then
        { s with
          loops := s.loops.map (fun l1 => if l1.id == t then { l1 with pc := .inBody } else l1)
          invocations := s.invocations + 1 }
      else
        { s with loops := s.loops.filter (fun l1 => l1.id != t) }
    | .inBody =>
      { s with loops := s.loops.map (fun l1 => if l1.id == t then { l1 with pc := .atTest } else l1) }

/-- The wait `_thd.join()`: the calling thread waits until thread `t` has returned.  While
the flag is false the thread finishes a body in flight, reads the flag and returns, which
takes at most two of its steps; while the flag is true it never returns. -/
def join (s : CallBackTimer) (t : Nat) : CallBackTimer :=
  if s._execute then
    { s with blocked := true }
  else
    { step (step s t) t with _thd := none }

/-- The method `CallBackTimer::stop`. -/
def stop (s : CallBackTimer) : CallBackTimer :=
  let s1 := { s with _execute := false }
  match s1._thd with
  | some t => join s1 t
  | none => s1

/-- The method `CallBackTimer::start`; the interval and the callback do not affect which
threads exist and are left out.  Move-assigning to `_thd` while it is joinable calls
`std::terminate`. -/
def start (s : CallBackTimer) : CallBackTimer :=
  let s1 := if s._execute then stop s else s
  let s2 := { s1 with _execute := true }
  match s2._thd with
  | some _ => { s2 with terminated := true }
  | none =>
    { s2 with
      _thd := some s2.launched
      loops := s2.loops ++ [{ id := s2.launched, pc := .atTest }]
      launched := s2.launched + 1 }

end CallBackTimer

/-- The shape of a timer between two actions: `std::terminate` was not reached, no `join`
is stuck, and either the flag is false, `_thd` is not joinable and no loop is live, or
the flag is true and the one live loop is the thread `_thd` refers to. -/
def CallBackTimer.Consistent (s : CallBackTimer) : Prop :=
  s.terminated = false ∧ s.blocked = false ∧
    ((s._execute = false ∧ s._thd = none ∧ s.loops = []) ∨
      (s._execute = true ∧ ∃ (t : Nat) (pc : LoopPc),
        t < s.launched ∧ s._thd = some t ∧ s.loops = [{ id := t, pc := pc }]))

/-- What can happen next to a timer: a call of the controlling thread, or a step of a
loop thread. -/
inductive TimerAction where
  | start
  | stop
  | step (t : Nat)
deriving DecidableEq, Repr

/-- One action applied to the timer. -/
def TimerAction.apply (s : CallBackTimer) : TimerAction → CallBackTimer
  | .start => s.start
  | .stop => s.stop
  | .step t => s.step t

/-- A sequence of actions applied to the timer, oldest first. -/
def runTimer (s : CallBackTimer) (actions : List TimerAction) : CallBackTimer :=
  actions.foldl TimerAction.apply s

/-- The image update a refresh owes to one registry entry: addressed to the entry's context,
with the image chosen by whether the mute value of the entry's strip is at least one
half. -/
def imageFor (vm : VoiceMeeter) (context : String × Settings) : String × String :=
  (context.1,
    if 1 / 2 ≤ vm.stripMute context.2.mStripNumber then kImageAtLeastHalf else kImageBelowHalf)

/-! ## Sample states -/

/-- A registry holding the one instance `ctx1`, on strip 3. -/
def sampleRegistry : Registry := Registry.empty.insert "ctx1" (Settings.mk 3)

/-- A plugin connected to the host, showing `ctx1` on strip 3. -/
def samplePlugin : MyStreamDeckPlugin :=
  { mVisibleContexts := sampleRegistry, mConnectionManager := true }

/-- The same plugin before the host connection is set. -/
def samplePluginUnconnected : MyStreamDeckPlugin :=
  { mVisibleContexts := sampleRegistry, mConnectionManager := false }

/-- A mixer with every strip unmuted and nothing changed since the last check. -/
def sampleMixer : VoiceMeeter := { stripMute := fun _ => 0, dirty := false }

/-- A settings payload carrying the given `strip_number`. -/
def stripPayload (n : Int) : Json := Json.obj [("strip_number", Json.int n)]

/-! ## Lemmas on the registry -/

theorem Registry.ext_entries {r1 r2 : Registry} (h : r1.entries = r2.entries) : r1 = r2 := by
  cases r1; cases r2; cases h; rfl

theorem lookup_eq_none_iff_not_mem (key : String) (es : List (String × Settings)) :
    List.lookup key es = none ↔ key ∉ es.map Prod.fst := by
  induction es with
  | nil => simp
  | cons e es ih =>
    obtain ⟨k, v⟩ := e
    by_cases hk : key = k
    · subst hk; simp [List.lookup_cons]
    · have hb : (key == k) = false := by simpa using hk
      simp [List.lookup_cons, hb, ih, hk]

theorem lookup_isSome_iff_mem (key : String) (es : List (String × Settings)) :
    (List.lookup key es).isSome = true ↔ key ∈ es.map Prod.fst := by
  rw [← not_iff_not, ← lookup_eq_none_iff_not_mem]
  cases List.lookup key es <;> simp

theorem lookup_append_of_none (key : String) (es fs : List (String × Settings))
    (h : List.lookup key es = none) : List.lookup key (es ++ fs) = List.lookup key fs := by
  induction es with
  | nil => rfl
  | cons e es ih =>
    obtain ⟨k, v⟩ := e
    by_cases hb : (key == k) = true
    · simp [List.lookup_cons, hb] at h
    · have hb1 : (key == k) = false := by simpa using hb
      simp only [List.lookup_cons, hb1] at h
      simp [List.lookup_cons, hb1, ih h]

theorem lookup_append_of_some (key : String) (es fs : List (String × Settings)) (v : Settings)
    (h : List.lookup key es = some v) : List.lookup key (es ++ fs) = some v := by
  induction es with
  | nil => simp at h
  | cons e es ih =>
    obtain ⟨k, w⟩ := e
    by_cases hb : (key == k) = true
    · simpa [List.lookup_cons, hb] using h
    · have hb1 : (key == k) = false := by simpa using hb
      simp only [List.lookup_cons, hb1] at h
      simp [List.lookup_cons, hb1, ih h]

theorem Registry.atKey_isSome_iff (r : Registry) (key : String) :
    (r.atKey key).isSome = true ↔ key ∈ r.keys :=
  lookup_isSome_iff_mem key r.entries

theorem Registry.atKey_insert_self_of_none (r : Registry) (key : String) (value : Settings)
    (h : r.atKey key = none) : (r.insert key value).atKey key = some value := by
  have hmem : key ∉ r.entries.map Prod.fst := (lookup_eq_none_iff_not_mem key r.entries).1 h
  unfold Registry.insert
  rw [dif_neg hmem]
  show List.lookup key (r.entries ++ [(key, value)]) = some value
  rw [lookup_append_of_none key r.entries _ h]
  simp [List.lookup_cons]

theorem Registry.insert_of_some (r : Registry) (key : String) (value old : Settings)
    (h : r.atKey key = some old) : r.insert key value = r := by
  have hmem : key ∈ r.entries.map Prod.fst :=
    (lookup_isSome_iff_mem key r.entries).1 (by unfold Registry.atKey at h; simp [h])
  unfold Registry.insert
  rw [dif_pos hmem]

theorem Registry.atKey_insert_ne (r : Registry) (key other : String) (value : Settings)
    (hne : other ≠ key) : (r.insert key value).atKey other = r.atKey other := by
  unfold Registry.insert
  by_cases hmem : key ∈ r.entries.map Prod.fst
  · rw [dif_pos hmem]
  · rw [dif_neg hmem]
    show List.lookup other (r.entries ++ [(key, value)]) = List.lookup other r.entries
    have hb : (other == key) = false := by simpa using hne
    cases hl : List.lookup other r.entries with
    | none =>
      rw [lookup_append_of_none other r.entries _ hl]
      simp [List.lookup_cons, hb]
    | some v => exact lookup_append_of_some other r.entries _ v hl

theorem Registry.atKey_insert_isSome (r : Registry) (key : String) (value : Settings) :
    ((r.insert key value).atKey key).isSome = true := by
  cases h : r.atKey key with
  | none => rw [Registry.atKey_insert_self_of_none r key value h]; rfl
  | some old => rw [Registry.insert_of_some r key value old h, h]; rfl

theorem lookup_filter_ne_self (key : String) (es : List (String × Settings)) :
    List.lookup key (es.filter (fun e => e.1 != key)) = none := by
  rw [lookup_eq_none_iff_not_mem]
  intro hmem
  obtain ⟨e, he, hk⟩ := List.mem_map.1 hmem
  have := (List.mem_filter.1 he).2
  simp [hk] at this

theorem lookup_filter_ne_other (key other : String) (es : List (String × Settings))
    (hne : other ≠ key) :
    List.lookup other (es.filter (fun e => e.1 != key)) = List.lookup other es := by
  induction es with
  | nil => rfl
  | cons e es ih =>
    obtain ⟨k, v⟩ := e
    by_cases hk : k = key
    · subst hk
      have hb : (other == k) = false := by simpa using hne
      simp [List.filter_cons, List.lookup_cons, hb, ih]
    · have hf : (k != key) = true := by simpa using hk
      rw [List.filter_cons]
      simp only [hf, if_true, List.lookup_cons, ih]

theorem Registry.atKey_erase_self (r : Registry) (key : String) :
    (r.erase key).atKey key = none :=
  lookup_filter_ne_self key r.entries

theorem Registry.atKey_erase_ne (r : Registry) (key other : String) (hne : other ≠ key) :
    (r.erase key).atKey other = r.atKey other :=
  lookup_filter_ne_other key other r.entries hne

theorem lookup_map_assign (key other : String) (n : Int) (es : List (String × Settings)) :
    List.lookup other
        (es.map (fun e => if e.1 == key then (e.1, Settings.mk n) else e)) =
      if other = key then (List.lookup other es).map (fun _ => Settings.mk n)
      else List.lookup other es := by
  induction es with
  | nil => simp
  | cons e es ih =>
    obtain ⟨k, v⟩ := e
    by_cases hok : other = k
    · subst hok
      by_cases hk : other = key
      · simp [List.lookup_cons, hk]
      · simp [List.lookup_cons, hk]
    · have hb : (other == k) = false := by simpa using hok
      by_cases hk : k = key
      · simp only [List.map_cons, hk, beq_self_eq_true, if_true, List.lookup_cons]
        rw [← hk, hb]
        simp only [hk]
        exact ih
      · have hkb : (k == key) = false := by simpa using hk
        simp only [List.map_cons, hkb, Bool.false_eq_true, if_false, List.lookup_cons, hb]
        exact ih

theorem Registry.atKey_assign_self (r : Registry) (key : String) (n : Int) (old : Settings)
    (h : r.atKey key = some old) : (r.assign key n).atKey key = some (Settings.mk n) := by
  unfold Registry.atKey at h
  unfold Registry.atKey Registry.assign
  rw [lookup_map_assign, if_pos rfl, h]
  rfl

theorem Registry.atKey_assign_ne (r : Registry) (key other : String) (n : Int)
    (hne : other ≠ key) : (r.assign key n).atKey other = r.atKey other := by
  unfold Registry.atKey Registry.assign
  rw [lookup_map_assign, if_neg hne]

theorem Registry.keys_assign (r : Registry) (key : String) (n : Int) :
    (r.assign key n).keys = r.keys := by
  show List.map Prod.fst (List.map _ r.entries) = List.map Prod.fst r.entries
  rw [List.map_map]
  apply List.map_congr_left
  intro e _
  by_cases hk : e.1 = key <;> simp [hk]

theorem UpdateTimer_plugin (p : MyStreamDeckPlugin) (vm : VoiceMeeter) (force : Bool) :
    (UpdateTimer p vm force).plugin = p := by
  unfold UpdateTimer
  split
  · split
    · dsimp only
      split <;> rfl
    · rfl
  · rfl

/-! ## Key events -/

/-- C1: a key-released event for an instance registered with strip `c` makes exactly the two
mixer calls of one mute toggle, both on strip `c`, and changes no other strip; for an
instance that is not registered it makes no call at all and leaves the mixer as it is;
the registry is unchanged in both cases.  A key-pressed event changes nothing and makes
no call. -/
theorem keyUp_toggles_registered_strip_only (p : MyStreamDeckPlugin) (vm : VoiceMeeter)
    (inAction inContext : String) (inPayload : Json) (inDeviceID : String) :
    KeyDownForAction p vm inAction inContext inPayload inDeviceID = ⟨p, vm, []⟩ ∧
    (KeyUpForAction p vm inAction inContext inPayload inDeviceID).plugin = p ∧
    (∀ c : Int, p.mVisibleContexts.atKey inContext = some (Settings.mk c) →
      (KeyUpForAction p vm inAction inContext inPayload inDeviceID).calls =
          [Call.VBVMR_GetParameterFloat c,
            Call.VBVMR_SetParameterFloat c (1 - vm.stripMute c)] ∧
        (KeyUpForAction p vm inAction inContext inPayload inDeviceID).mixer =
          (ToggleMute vm c).1 ∧
        (KeyUpForAction p vm inAction inContext inPayload inDeviceID).mixer.stripMute c =
          1 - vm.stripMute c ∧
        ∀ n : Int, n ≠ c →
          (KeyUpForAction p vm inAction inContext inPayload inDeviceID).mixer.stripMute n =
            vm.stripMute n) ∧
    (p.mVisibleContexts.atKey inContext = none →
      (KeyUpForAction p vm inAction inContext inPayload inDeviceID).calls = [] ∧
        (KeyUpForAction p vm inAction inContext inPayload inDeviceID).mixer = vm) := by
  refine ⟨rfl, ?_, ?_, ?_⟩
  · unfold KeyUpForAction
    cases p.mVisibleContexts.atKey inContext <;> rfl
  · intro c hc
    unfold KeyUpForAction
    rw [hc]
    refine ⟨rfl, rfl, ?_, ?_⟩
    · simp [ToggleMute, GetMute, VBVMR_SetParameterFloat]
    · intro n hn
      simp [ToggleMute, GetMute, VBVMR_SetParameterFloat, hn]
  · intro hnone
    unfold KeyUpForAction
    rw [hnone]
    exact ⟨rfl, rfl⟩

/-- Witness for C1: `ctx1` is registered on strip 3 and its key-up toggles strip 3; `ctx2` is
not registered and its key-up makes no call. -/
theorem keyUp_toggles_registered_strip_only_witness :
    samplePlugin.mVisibleContexts.atKey "ctx1" = some (Settings.mk 3) ∧
    (KeyUpForAction samplePlugin sampleMixer "action" "ctx1" Json.null "dev").calls =
      [Call.VBVMR_GetParameterFloat 3,
        Call.VBVMR_SetParameterFloat 3 (1 - sampleMixer.stripMute 3)] ∧
    samplePlugin.mVisibleContexts.atKey "ctx2" = none ∧
    (KeyUpForAction samplePlugin sampleMixer "action" "ctx2" Json.null "dev").calls = [] :=
  ⟨by decide,
    ((keyUp_toggles_registered_strip_only samplePlugin sampleMixer "action" "ctx1" Json.null
      "dev").2.2.1 3 (by decide)).1,
    by decide,
    ((keyUp_toggles_registered_strip_only samplePlugin sampleMixer "action" "ctx2" Json.null
      "dev").2.2.2 (by decide)).1⟩

/-! ## The mute toggle -/

/-- C7: `ToggleMute c` reads `Strip[c].Mute` once and writes one minus that value to
`Strip[c].Mute`; every other strip keeps its value; applied twice it gives every strip,
`c` included, its original value back. -/
theorem toggleMute_writes_complement (vm : VoiceMeeter) (c : Int) :
    (ToggleMute vm c).2 =
      [Call.VBVMR_GetParameterFloat c, Call.VBVMR_SetParameterFloat c (1 - vm.stripMute c)] ∧
    (ToggleMute vm c).1.stripMute c = 1 - vm.stripMute c ∧
    (∀ n : Int, n ≠ c → (ToggleMute vm c).1.stripMute n = vm.stripMute n) ∧
    (ToggleMute (ToggleMute vm c).1 c).1.stripMute c = vm.stripMute c ∧
    (ToggleMute (ToggleMute vm c).1 c).1.stripMute = vm.stripMute := by
  refine ⟨rfl, ?_, ?_, ?_, ?_⟩
  · simp [ToggleMute, GetMute, VBVMR_SetParameterFloat]
  · intro n hn
    simp [ToggleMute, GetMute, VBVMR_SetParameterFloat, hn]
  · simp [ToggleMute, GetMute, VBVMR_SetParameterFloat]
  · funext n
    by_cases hn : n = c <;> simp [ToggleMute, GetMute, VBVMR_SetParameterFloat, hn]

/-- Witness for C7: toggling strip 3 leaves strip 4 as it was. -/
theorem toggleMute_writes_complement_witness :
    (ToggleMute sampleMixer 3).1.stripMute 4 = sampleMixer.stripMute 4 :=
  (toggleMute_writes_complement sampleMixer 3).2.2.1 4 (by decide)

/-! ## Settings pushed from the inspector -/

theorem GetIntByName_neg_of_no_natural (inPayload : Json)
    (hbad : ∀ n : Int, inPayload.find "strip_number" = some (Json.int n) → n < 0) :
    GetIntByName inPayload "strip_number" (-1) < 0 := by
  unfold GetIntByName
  split
  · next n hn => exact hbad n hn
  · decide

theorem GetIntByName_of_find (inPayload : Json) (inName : String) (n defaultValue : Int)
    (hn : inPayload.find inName = some (Json.int n)) :
    GetIntByName inPayload inName defaultValue = n := by
  unfold GetIntByName
  rw [hn]

/-- C5: a push that is not a read-request and whose `strip_number` is negative, missing or
not an integer (it carries no integer `strip_number` that is at least 0) returns at once:
plugin and registry are the ones before the push, the mixer is untouched, and no call is
made at all, so nothing is persisted, no image is sent and no refresh runs. -/
theorem sendToPlugin_rejects_invalid_strip (p : MyStreamDeckPlugin) (vm : VoiceMeeter)
    (inAction inContext : String) (inPayload : Json) (inDeviceID : String)
    (hwrite : GetBoolByName inPayload "DATAREQUEST" false = false)
    (hbad : ∀ n : Int, inPayload.find "strip_number" = some (Json.int n) → n < 0) :
    SendToPlugin p vm inAction inContext inPayload inDeviceID = ⟨p, vm, []⟩ := by
  unfold SendToPlugin
  rw [hwrite]
  simp only [Bool.false_eq_true, if_false]
  rw [if_pos (GetIntByName_neg_of_no_natural inPayload hbad)]

/-- Witness for C5: a negative, a missing and a non-integer `strip_number` are all rejected. -/
theorem sendToPlugin_rejects_invalid_strip_witness :
    SendToPlugin samplePlugin sampleMixer "action" "ctx1" (stripPayload (-1)) "dev" =
      ⟨samplePlugin, sampleMixer, []⟩ ∧
    SendToPlugin samplePlugin sampleMixer "action" "ctx1" (Json.obj []) "dev" =
      ⟨samplePlugin, sampleMixer, []⟩ ∧
    SendToPlugin samplePlugin sampleMixer "action" "ctx1"
        (Json.obj [("strip_number", Json.str "3")]) "dev" =
      ⟨samplePlugin, sampleMixer, []⟩ :=
  ⟨sendToPlugin_rejects_invalid_strip samplePlugin sampleMixer "action" "ctx1"
      (stripPayload (-1)) "dev" rfl
      (by intro n h; simp [stripPayload, Json.find, List.lookup] at h; omega),
    sendToPlugin_rejects_invalid_strip samplePlugin sampleMixer "action" "ctx1"
      (Json.obj []) "dev" rfl
      (by intro n h; simp [Json.find, List.lookup] at h),
    sendToPlugin_rejects_invalid_strip samplePlugin sampleMixer "action" "ctx1"
      (Json.obj [("strip_number", Json.str "3")]) "dev" rfl
      (by intro n h; simp [Json.find, List.lookup] at h)⟩

/-- C6: with a host connection, a read-request for a registered instance sends exactly one
message, to the inspector of that instance, whose payload is `strip_number` set to the
instance's current strip; for an instance that is not registered it sends nothing.  In
both cases plugin, registry and mixer are unchanged and no other call is made, whatever
else the payload carries. -/
theorem sendToPlugin_dataRequest_reports_strip (p : MyStreamDeckPlugin) (vm : VoiceMeeter)
    (inAction inContext : String) (inPayload : Json) (inDeviceID : String)
    (hconn : p.mConnectionManager = true)
    (hread : GetBoolByName inPayload "DATAREQUEST" false = true) :
    (SendToPlugin p vm inAction inContext inPayload inDeviceID).plugin = p ∧
    (SendToPlugin p vm inAction inContext inPayload inDeviceID).mixer = vm ∧
    (∀ c : Int, p.mVisibleContexts.atKey inContext = some (Settings.mk c) →
      (SendToPlugin p vm inAction inContext inPayload inDeviceID).calls =
        [Call.SendToPropertyInspector inAction inContext
          (Json.obj [("strip_number", Json.int c)])]) ∧
    (p.mVisibleContexts.atKey inContext = none →
      (SendToPlugin p vm inAction inContext inPayload inDeviceID).calls = []) := by
  unfold SendToPlugin
  rw [hread, hconn]
  simp only [if_true]
  refine ⟨?_, ?_, ?_, ?_⟩
  · cases p.mVisibleContexts.atKey inContext <;> rfl
  · cases p.mVisibleContexts.atKey inContext <;> rfl
  · intro c hc
    rw [hc]
    rfl
  · intro hnone
    rw [hnone]
    rfl

/-- Witness for C6: a read-request that itself carries `strip_number` 7 is answered with
strip 3 for `ctx1` and with nothing for `ctx2`. -/
theorem sendToPlugin_dataRequest_reports_strip_witness :
    (SendToPlugin samplePlugin sampleMixer "action" "ctx1"
        (Json.obj [("DATAREQUEST", Json.bool true), ("strip_number", Json.int 7)]) "dev").calls =
      [Call.SendToPropertyInspector "action" "ctx1" (Json.obj [("strip_number", Json.int 3)])] ∧
    (SendToPlugin samplePlugin sampleMixer "action" "ctx2"
        (Json.obj [("DATAREQUEST", Json.bool true), ("strip_number", Json.int 7)]) "dev").calls =
      [] :=
  ⟨(sendToPlugin_dataRequest_reports_strip samplePlugin sampleMixer "action" "ctx1"
      (Json.obj [("DATAREQUEST", Json.bool true), ("strip_number", Json.int 7)]) "dev"
      rfl rfl).2.2.1 3 (by decide),
    (sendToPlugin_dataRequest_reports_strip samplePlugin sampleMixer "action" "ctx2"
      (Json.obj [("DATAREQUEST", Json.bool true), ("strip_number", Json.int 7)]) "dev"
      rfl rfl).2.2.2 (by decide)⟩

/-- C10: with a host connection, a write push carrying `strip_number = n`, `n` at least 0,
for an instance that is not registered makes the one call that persists the payload for
that instance and nothing else: plugin and registry are the ones before the push (no
entry is created), the mixer is untouched and no refresh runs. -/
theorem sendToPlugin_write_unregistered_only_persists (p : MyStreamDeckPlugin)
    (vm : VoiceMeeter) (inAction inContext : String) (inPayload : Json) (inDeviceID : String)
    (n : Int)
    (hconn : p.mConnectionManager = true)
    (hwrite : GetBoolByName inPayload "DATAREQUEST" false = false)
    (hstrip : inPayload.find "strip_number" = some (Json.int n))
    (hn : 0 ≤ n)
    (hunreg : p.mVisibleContexts.atKey inContext = none) :
    SendToPlugin p vm inAction inContext inPayload inDeviceID =
      ⟨p, vm, [Call.SetSettings inPayload inContext]⟩ := by
  unfold SendToPlugin
  rw [hwrite, GetIntByName_of_find inPayload "strip_number" n (-1) hstrip, hconn, hunreg]
  simp only [Bool.false_eq_true, if_false, if_true]
  rw [if_neg (not_lt.2 hn)]

/-- Witness for C10: writing strip 5 for the unregistered `ctx2`. -/
theorem sendToPlugin_write_unregistered_only_persists_witness :
    SendToPlugin samplePlugin sampleMixer "action" "ctx2" (stripPayload 5) "dev" =
      ⟨samplePlugin, sampleMixer, [Call.SetSettings (stripPayload 5) "ctx2"]⟩ :=
  sendToPlugin_write_unregistered_only_persists samplePlugin sampleMixer "action" "ctx2"
    (stripPayload 5) "dev" 5 rfl rfl rfl (by decide) (by decide)

/-- C4, as stated, fails without a host connection: `ctx1` is registered, the push is a
write carrying `strip_number = 5`, and yet no call is made, so nothing is persisted. -/
theorem sendToPlugin_write_unconnected_persists_nothing :
    samplePluginUnconnected.mVisibleContexts.atKey "ctx1" = some (Settings.mk 3) ∧
    GetBoolByName (stripPayload 5) "DATAREQUEST" false = false ∧
    (stripPayload 5).find "strip_number" = some (Json.int 5) ∧
    (SendToPlugin samplePluginUnconnected sampleMixer "action" "ctx1" (stripPayload 5)
      "dev").calls = [] ∧
    ((SendToPlugin samplePluginUnconnected sampleMixer "action" "ctx1" (stripPayload 5)
      "dev").calls.filter Call.isSetSettings).length = 0 :=
  ⟨by decide, rfl, rfl, rfl, rfl⟩

theorem UpdateTimer_forced_mixer (p : MyStreamDeckPlugin) (vm : VoiceMeeter) :
    (UpdateTimer p vm true).mixer = vm := by
  unfold UpdateTimer
  cases p.mConnectionManager <;> rfl

/-- C4 (amended): a write push carrying `strip_number = n`, `n` at least 0, for a registered
instance persists the payload for that instance when a host connection is present (and
makes no persisting call when there is none); in both cases it then leaves the registry
mapping the instance to `n`, with every other instance's entry and the key list
unchanged, and runs a forced refresh of the updated plugin, whose calls follow the
persisting call; the mixer is untouched.  With a connection the calls are thus the one
`SetSettings` followed by one mute read and one image per registered instance. -/
theorem sendToPlugin_write_registered_updates (p : MyStreamDeckPlugin) (vm : VoiceMeeter)
    (inAction inContext : String) (inPayload : Json) (inDeviceID : String)
    (n : Int) (old : Settings)
    (hwrite : GetBoolByName inPayload "DATAREQUEST" false = false)
    (hstrip : inPayload.find "strip_number" = some (Json.int n))
    (hn : 0 ≤ n)
    (hreg : p.mVisibleContexts.atKey inContext = some old) :
    (SendToPlugin p vm inAction inContext inPayload inDeviceID).calls =
      (if p.mConnectionManager then [Call.SetSettings inPayload inContext] else []) ++
        (UpdateTimer (SendToPlugin p vm inAction inContext inPayload inDeviceID).plugin vm
          true).calls ∧
    (p.mConnectionManager = true →
      (SendToPlugin p vm inAction inContext inPayload inDeviceID).calls =
        Call.SetSettings inPayload inContext ::
          (SendToPlugin p vm inAction inContext inPayload
            inDeviceID).plugin.mVisibleContexts.entries.flatMap (updateContext vm)) ∧
    (SendToPlugin p vm inAction inContext inPayload
      inDeviceID).plugin.mVisibleContexts.atKey inContext = some (Settings.mk n) ∧
    (∀ other : String, other ≠ inContext →
      (SendToPlugin p vm inAction inContext inPayload
        inDeviceID).plugin.mVisibleContexts.atKey other = p.mVisibleContexts.atKey other) ∧
    (SendToPlugin p vm inAction inContext inPayload inDeviceID).plugin.mVisibleContexts.keys =
      p.mVisibleContexts.keys ∧
    (SendToPlugin p vm inAction inContext inPayload inDeviceID).plugin.mConnectionManager =
      p.mConnectionManager ∧
    (SendToPlugin p vm inAction inContext inPayload inDeviceID).mixer = vm := by
  have hrun : SendToPlugin p vm inAction inContext inPayload inDeviceID =
      ⟨{ p with mVisibleContexts := p.mVisibleContexts.assign inContext n }, vm,
        (if p.mConnectionManager then [Call.SetSettings inPayload inContext] else []) ++
          (UpdateTimer { p with mVisibleContexts := p.mVisibleContexts.assign inContext n }
            vm true).calls⟩ := by
    unfold SendToPlugin
    rw [hwrite, GetIntByName_of_find inPayload "strip_number" n (-1) hstrip, hreg]
    simp only [Bool.false_eq_true, if_false]
    rw [if_neg (not_lt.2 hn)]
    simp only [UpdateTimer_plugin, UpdateTimer_forced_mixer]
  rw [hrun]
  refine ⟨rfl, ?_, ?_, ?_, ?_, rfl, rfl⟩
  · intro hconn
    simp [UpdateTimer, hconn]
  · exact Registry.atKey_assign_self p.mVisibleContexts inContext n old hreg
  · intro other hne
    exact Registry.atKey_assign_ne p.mVisibleContexts inContext other n hne
  · exact Registry.keys_assign p.mVisibleContexts inContext n

/-- Witness for C4 (amended): writing strip 5 for the registered `ctx1` sets its entry to
strip 5 both with and without a host connection, and with a connection the first call
persists the payload. -/
theorem sendToPlugin_write_registered_updates_witness :
    (SendToPlugin samplePlugin sampleMixer "action" "ctx1" (stripPayload 5)
      "dev").plugin.mVisibleContexts.atKey "ctx1" = some (Settings.mk 5) ∧
    (SendToPlugin samplePluginUnconnected sampleMixer "action" "ctx1" (stripPayload 5)
      "dev").plugin.mVisibleContexts.atKey "ctx1" = some (Settings.mk 5) ∧
    (SendToPlugin samplePlugin sampleMixer "action" "ctx1" (stripPayload 5) "dev").calls =
      Call.SetSettings (stripPayload 5) "ctx1" ::
        (SendToPlugin samplePlugin sampleMixer "action" "ctx1" (stripPayload 5)
          "dev").plugin.mVisibleContexts.entries.flatMap (updateContext sampleMixer) :=
  ⟨(sendToPlugin_write_registered_updates samplePlugin sampleMixer "action" "ctx1"
      (stripPayload 5) "dev" 5 (Settings.mk 3) rfl rfl (by decide) (by decide)).2.2.1,
    (sendToPlugin_write_registered_updates samplePluginUnconnected sampleMixer "action" "ctx1"
      (stripPayload 5) "dev" 5 (Settings.mk 3) rfl rfl (by decide) (by decide)).2.2.1,
    (sendToPlugin_write_registered_updates samplePlugin sampleMixer "action" "ctx1"
      (stripPayload 5) "dev" 5 (Settings.mk 3) rfl rfl (by decide) (by decide)).2.1 rfl⟩

/-! ## Appearance of an instance -/

/-- C2 at its failing input: `ctx1` is registered on strip 3; after a will-appear for `ctx1`
whose settings carry `strip_number = 5` the lookup still returns strip 3, although the
handler has forwarded the settings with strip 5 to the inspector. -/
theorem willAppear_keeps_existing_entry :
    samplePlugin.mVisibleContexts.atKey "ctx1" = some (Settings.mk 3) ∧
    GetObjectByName (Json.obj [("settings", stripPayload 5)]) "settings" =
      some (stripPayload 5) ∧
    (stripPayload 5).find "strip_number" = some (Json.int 5) ∧
    (WillAppearForAction samplePlugin sampleMixer "action" "ctx1"
      (Json.obj [("settings", stripPayload 5)]) "dev").plugin.mVisibleContexts.atKey "ctx1" =
        some (Settings.mk 3) ∧
    (WillAppearForAction samplePlugin sampleMixer "action" "ctx1"
      (Json.obj [("settings", stripPayload 5)]) "dev").calls.head? =
        some (Call.SendToPropertyInspector "action" "ctx1" (stripPayload 5)) :=
  ⟨by decide, rfl, rfl, by decide, rfl⟩

theorem WillAppearForAction_plugin (p : MyStreamDeckPlugin) (vm : VoiceMeeter)
    (inAction inContext : String) (inPayload : Json) (inDeviceID : String) :
    ∃ stripNumber : Int,
      (WillAppearForAction p vm inAction inContext inPayload inDeviceID).plugin =
        { p with mVisibleContexts :=
            p.mVisibleContexts.insert inContext (Settings.mk stripNumber) } ∧
      (∀ settingsPayload, GetObjectByName inPayload "settings" = some settingsPayload →
        stripNumber = GetIntByName settingsPayload "strip_number" 0) ∧
      (GetObjectByName inPayload "settings" = none → stripNumber = 0) := by
  unfold WillAppearForAction
  cases h : GetObjectByName inPayload "settings" with
  | none =>
    refine ⟨0, ?_, ?_, fun _ => rfl⟩
    · simp only [UpdateTimer_plugin]
    · intro sp hsp
      cases hsp
  | some sp =>
    refine ⟨GetIntByName sp "strip_number" 0, ?_, ?_, ?_⟩
    · simp only [UpdateTimer_plugin]
    · intro sp1 hsp
      cases hsp
      rfl
    · intro hnone
      cases hnone

/-- The part of C2 that the code does satisfy: for an instance that is not registered, a
will-appear whose settings carry `strip_number = n` registers it on strip `n`, and one
without settings, or whose settings carry no integer `strip_number`, registers it on
strip 0. -/
theorem willAppear_registers_new_context (p : MyStreamDeckPlugin) (vm : VoiceMeeter)
    (inAction inContext : String) (inPayload : Json) (inDeviceID : String)
    (hnew : p.mVisibleContexts.atKey inContext = none) :
    (∀ (settingsPayload : Json) (n : Int),
      GetObjectByName inPayload "settings" = some settingsPayload →
      settingsPayload.find "strip_number" = some (Json.int n) →
      (WillAppearForAction p vm inAction inContext inPayload
        inDeviceID).plugin.mVisibleContexts.atKey inContext = some (Settings.mk n)) ∧
    (GetObjectByName inPayload "settings" = none →
      (WillAppearForAction p vm inAction inContext inPayload
        inDeviceID).plugin.mVisibleContexts.atKey inContext = some (Settings.mk 0)) ∧
    (∀ settingsPayload : Json,
      GetObjectByName inPayload "settings" = some settingsPayload →
      (∀ n : Int, settingsPayload.find "strip_number" ≠ some (Json.int n)) →
      (WillAppearForAction p vm inAction inContext inPayload
        inDeviceID).plugin.mVisibleContexts.atKey inContext = some (Settings.mk 0)) := by
  obtain ⟨k, hk, hsome, hnone⟩ :=
    WillAppearForAction_plugin p vm inAction inContext inPayload inDeviceID
  rw [hk]
  refine ⟨?_, ?_, ?_⟩
  · intro sp n hsp hfind
    rw [hsome sp hsp, GetIntByName_of_find sp "strip_number" n 0 hfind]
    exact Registry.atKey_insert_self_of_none _ _ _ hnew
  · intro hno
    rw [hnone hno]
    exact Registry.atKey_insert_self_of_none _ _ _ hnew
  · intro sp hsp hnoint
    have h0 : GetIntByName sp "strip_number" 0 = 0 := by
      unfold GetIntByName
      split
      · next n hn => exact absurd hn (hnoint n)
      · rfl
    rw [hsome sp hsp, h0]
    exact Registry.atKey_insert_self_of_none _ _ _ hnew

/-! ## The refresh -/

theorem imageUpdates_flatMap_updateContext (vm : VoiceMeeter) (es : List (String × Settings)) :
    imageUpdates (es.flatMap (updateContext vm)) = es.map (imageFor vm) := by
  induction es with
  | nil => rfl
  | cons e es ih =>
    have hhead : imageUpdates (updateContext vm e) = [imageFor vm e] := by
      show imageUpdates ([Call.VBVMR_GetParameterFloat e.2.mStripNumber] ++
          [if vm.stripMute e.2.mStripNumber < 1 / 2 then _ else _]) =
        [(e.1, if 1 / 2 ≤ vm.stripMute e.2.mStripNumber then _ else _)]
      by_cases hlt : vm.stripMute e.2.mStripNumber < 1 / 2
      · rw [if_pos hlt, if_neg (not_le.2 hlt)]
        rfl
      · rw [if_neg hlt, if_pos (not_lt.1 hlt)]
        rfl
    rw [List.flatMap_cons, List.map_cons, ← ih]
    unfold imageUpdates at hhead ⊢
    rw [List.filterMap_append, hhead]
    rfl

theorem changesMixer_flatMap_updateContext (vm : VoiceMeeter) (es : List (String × Settings)) :
    (es.flatMap (updateContext vm)).filter Call.changesMixer = [] := by
  induction es with
  | nil => rfl
  | cons e es ih =>
    have hhead : (updateContext vm e).filter Call.changesMixer = [] := by
      show List.filter Call.changesMixer ([Call.VBVMR_GetParameterFloat e.2.mStripNumber] ++
          [if vm.stripMute e.2.mStripNumber < 1 / 2 then _ else _]) = []
      by_cases hlt : vm.stripMute e.2.mStripNumber < 1 / 2
      · rw [if_pos hlt]
        rfl
      · rw [if_neg hlt]
        rfl
    rw [List.flatMap_cons, List.filter_append, ih, hhead]
    rfl

/-- C9: with a host connection, a non-forced refresh makes the one call that consumes the
dirty flag and, when the flag was clear, no other call (no image); when the flag was
set, and in every forced refresh, the calls are one mute read and one image per registry
entry, so that the images sent are exactly one per registered instance, addressed to it,
with the image decided by whether the mute value of its strip is at least one half; a
forced refresh leaves the mixer, dirty flag included, as it is and does not ask for the
flag; no refresh changes the plugin or any strip's mute value. -/
theorem updateTimer_sends_one_image_per_instance (p : MyStreamDeckPlugin) (vm : VoiceMeeter)
    (hconn : p.mConnectionManager = true) :
    ((UpdateTimer p vm false).mixer.dirty = false ∧
      (UpdateTimer p vm false).calls.filter Call.changesMixer =
        [Call.VBVMR_IsParametersDirty]) ∧
    (vm.dirty = false →
      (UpdateTimer p vm false).calls = [Call.VBVMR_IsParametersDirty] ∧
        imageUpdates (UpdateTimer p vm false).calls = []) ∧
    (vm.dirty = true →
      (UpdateTimer p vm false).calls =
          Call.VBVMR_IsParametersDirty :: p.mVisibleContexts.entries.flatMap (updateContext vm) ∧
        imageUpdates (UpdateTimer p vm false).calls =
          p.mVisibleContexts.entries.map (imageFor vm)) ∧
    ((UpdateTimer p vm true).mixer = vm ∧
      (UpdateTimer p vm true).calls = p.mVisibleContexts.entries.flatMap (updateContext vm) ∧
      imageUpdates (UpdateTimer p vm true).calls =
        p.mVisibleContexts.entries.map (imageFor vm) ∧
      (UpdateTimer p vm true).calls.filter Call.changesMixer = []) ∧
    (∀ inContext : String,
      ((p.mVisibleContexts.entries.map (imageFor vm)).map Prod.fst).count inContext =
        if (p.mVisibleContexts.atKey inContext).isSome then 1 else 0) ∧
    kImageAtLeastHalf ≠ kImageBelowHalf ∧
    (∀ force : Bool,
      (UpdateTimer p vm force).plugin = p ∧
        (UpdateTimer p vm force).mixer.stripMute = vm.stripMute) := by
  have hforced : (UpdateTimer p vm true).calls =
      p.mVisibleContexts.entries.flatMap (updateContext vm) := by
    simp [UpdateTimer, hconn]
  have hclear : vm.dirty = false →
      (UpdateTimer p vm false).calls = [Call.VBVMR_IsParametersDirty] := by
    intro hd
    simp [UpdateTimer, hconn, Poll, VBVMR_IsParametersDirty, hd]
  have hset : vm.dirty = true →
      (UpdateTimer p vm false).calls =
        Call.VBVMR_IsParametersDirty ::
          p.mVisibleContexts.entries.flatMap (updateContext vm) := by
    intro hd
    simp [UpdateTimer, hconn, Poll, VBVMR_IsParametersDirty, hd]
    rfl
  refine ⟨⟨?_, ?_⟩, ?_, ?_, ⟨?_, hforced, ?_, ?_⟩, ?_, ?_, ?_⟩
  · cases hd : vm.dirty <;> simp [UpdateTimer, hconn, Poll, VBVMR_IsParametersDirty, hd]
  · cases hd : vm.dirty
    · rw [hclear hd]; rfl
    · rw [hset hd, List.filter_cons, changesMixer_flatMap_updateContext]; rfl
  · intro hd
    rw [hclear hd]
    exact ⟨rfl, rfl⟩
  · intro hd
    rw [hset hd]
    refine ⟨rfl, ?_⟩
    rw [← imageUpdates_flatMap_updateContext]
    rfl
  · simp [UpdateTimer, hconn]
  · rw [hforced, imageUpdates_flatMap_updateContext]
  · rw [hforced, changesMixer_flatMap_updateContext]
  · intro inContext
    have hkeys : (p.mVisibleContexts.entries.map (imageFor vm)).map Prod.fst =
        p.mVisibleContexts.keys := by
      rw [List.map_map]
      rfl
    have hnodup : p.mVisibleContexts.keys.Nodup := p.mVisibleContexts.nodup
    rw [hkeys, List.count_eq_of_nodup hnodup]
    by_cases hmem : inContext ∈ p.mVisibleContexts.keys
    · rw [if_pos hmem, if_pos ((Registry.atKey_isSome_iff p.mVisibleContexts inContext).2 hmem)]
    · rw [if_neg hmem, if_neg (fun hs =>
        hmem ((Registry.atKey_isSome_iff p.mVisibleContexts inContext).1 hs))]
  · decide
  · intro force
    refine ⟨UpdateTimer_plugin p vm force, ?_⟩
    cases force
    · cases hd : vm.dirty <;> simp [UpdateTimer, hconn, Poll, VBVMR_IsParametersDirty, hd]
    · simp [UpdateTimer, hconn]

/-- Witness for C9: the connected sample plugin with the flag clear sends no image on a timer
tick. -/
theorem updateTimer_sends_one_image_per_instance_witness :
    imageUpdates (UpdateTimer samplePlugin sampleMixer false).calls = [] :=
  ((updateTimer_sends_one_image_per_instance samplePlugin sampleMixer rfl).2.1 rfl).2

/-! ## Disappearance and the visibility invariant -/

theorem Registry.atKey_assign_isSome (r : Registry) (key other : String) (n : Int) :
    ((r.assign key n).atKey other).isSome = (r.atKey other).isSome := by
  unfold Registry.atKey Registry.assign
  rw [lookup_map_assign]
  by_cases hk : other = key
  · rw [if_pos hk]
    cases List.lookup other r.entries <;> rfl
  · rw [if_neg hk]

theorem KeyUpForAction_plugin (p : MyStreamDeckPlugin) (vm : VoiceMeeter)
    (inAction inContext : String) (inPayload : Json) (inDeviceID : String) :
    (KeyUpForAction p vm inAction inContext inPayload inDeviceID).plugin = p := by
  unfold KeyUpForAction
  cases p.mVisibleContexts.atKey inContext <;> rfl

theorem SendToPlugin_plugin (p : MyStreamDeckPlugin) (vm : VoiceMeeter)
    (inAction inContext : String) (inPayload : Json) (inDeviceID : String) :
    (SendToPlugin p vm inAction inContext inPayload inDeviceID).plugin = p ∨
    ∃ n : Int, (SendToPlugin p vm inAction inContext inPayload inDeviceID).plugin =
      { p with mVisibleContexts := p.mVisibleContexts.assign inContext n } := by
  unfold SendToPlugin
  split
  · left
    split
    · rfl
    · cases p.mVisibleContexts.atKey inContext <;> rfl
  · dsimp only
    split
    · left; rfl
    · cases p.mVisibleContexts.atKey inContext with
      | none => left; rfl
      | some old =>
        right
        exact ⟨GetIntByName inPayload "strip_number" (-1), by simp only [UpdateTimer_plugin]⟩

theorem handle_atKey_isSome (e : HostEvent) (p : MyStreamDeckPlugin) (vm : VoiceMeeter)
    (inContext : String) :
    ((e.handle p vm).plugin.mVisibleContexts.atKey inContext).isSome =
      (e.lifecycleOf inContext).getD (p.mVisibleContexts.atKey inContext).isSome := by
  cases e with
  | WillAppear a c j d =>
    obtain ⟨k, hk, _, _⟩ := WillAppearForAction_plugin p vm a c j d
    show ((WillAppearForAction p vm a c j d).plugin.mVisibleContexts.atKey inContext).isSome =
      (if c = inContext then some true else none).getD _
    rw [hk]
    by_cases hc : c = inContext
    · subst hc
      rw [if_pos rfl]
      exact Registry.atKey_insert_isSome p.mVisibleContexts c (Settings.mk k)
    · rw [if_neg hc]
      show ((p.mVisibleContexts.insert c (Settings.mk k)).atKey inContext).isSome = _
      rw [Registry.atKey_insert_ne p.mVisibleContexts c inContext (Settings.mk k)
        (fun h => hc h.symm)]
      rfl
  | WillDisappear a c j d =>
    show ((p.mVisibleContexts.erase c).atKey inContext).isSome =
      (if c = inContext then some false else none).getD _
    by_cases hc : c = inContext
    · subst hc
      rw [if_pos rfl, Registry.atKey_erase_self]
      rfl
    · rw [if_neg hc, Registry.atKey_erase_ne p.mVisibleContexts c inContext
        (fun h => hc h.symm)]
      rfl
  | KeyDown a c j d => rfl
  | KeyUp a c j d =>
    show ((KeyUpForAction p vm a c j d).plugin.mVisibleContexts.atKey inContext).isSome = _
    rw [KeyUpForAction_plugin]
    rfl
  | SendToPlugin a c j d =>
    show ((SendToPlugin p vm a c j d).plugin.mVisibleContexts.atKey inContext).isSome = _
    rcases SendToPlugin_plugin p vm a c j d with h | ⟨n, h⟩
    · rw [h]; rfl
    · rw [h]
      exact Registry.atKey_assign_isSome p.mVisibleContexts c inContext n

theorem runEvents_atKey_isSome (events : List HostEvent) :
    ∀ (p : MyStreamDeckPlugin) (vm : VoiceMeeter) (inContext : String),
      ((runEvents p vm events).plugin.mVisibleContexts.atKey inContext).isSome =
        ((events.filterMap (HostEvent.lifecycleOf inContext)).getLast?).getD
          (p.mVisibleContexts.atKey inContext).isSome := by
  induction events with
  | nil => intro p vm inContext; rfl
  | cons e es ih =>
    intro p vm inContext
    show ((runEvents (e.handle p vm).plugin (e.handle p vm).mixer
      es).plugin.mVisibleContexts.atKey inContext).isSome = _
    rw [ih, handle_atKey_isSome, List.filterMap_cons]
    cases hl : e.lifecycleOf inContext with
    | none => rfl
    | some b =>
      simp only [Option.getD_some, List.getLast?_cons]

/-- C3: after a will-disappear event for an instance its lookup is absent, whether or not
it was registered, and every other instance's entry is unchanged; and after any finite
sequence of host events handled from the empty registry, an instance is among the keys
of the registry exactly when its most recent will-appear / will-disappear event was a
will-appear. -/
theorem registry_holds_exactly_the_visible_instances :
    (∀ (p : MyStreamDeckPlugin) (vm : VoiceMeeter) (inAction inContext : String)
        (inPayload : Json) (inDeviceID : String),
      (WillDisappearForAction p vm inAction inContext inPayload
          inDeviceID).plugin.mVisibleContexts.atKey inContext = none ∧
        ∀ other : String, other ≠ inContext →
          (WillDisappearForAction p vm inAction inContext inPayload
            inDeviceID).plugin.mVisibleContexts.atKey other =
              p.mVisibleContexts.atKey other) ∧
    (∀ (connected : Bool) (vm : VoiceMeeter) (events : List HostEvent) (inContext : String),
      inContext ∈ (runEvents ⟨Registry.empty, connected⟩ vm events).plugin.mVisibleContexts.keys ↔
        lastWasWillAppear inContext events = true) := by
  constructor
  · intro p vm inAction inContext inPayload inDeviceID
    exact ⟨Registry.atKey_erase_self p.mVisibleContexts inContext,
      fun other hne => Registry.atKey_erase_ne p.mVisibleContexts inContext other hne⟩
  · intro connected vm events inContext
    rw [← Registry.atKey_isSome_iff, runEvents_atKey_isSome]
    unfold lastWasWillAppear
    have hempty : (Registry.empty.atKey inContext).isSome = false := rfl
    show ((List.filterMap (HostEvent.lifecycleOf inContext) events).getLast?).getD
      (Registry.empty.atKey inContext).isSome = true ↔ _
    rw [hempty]
    cases (List.filterMap (HostEvent.lifecycleOf inContext) events).getLast? with
    | none => decide
    | some b => cases b <;> decide

/-- Witness for C3: when `ctx2` disappears, the entry of `ctx1` stays. -/
theorem registry_holds_exactly_the_visible_instances_witness :
    (WillDisappearForAction samplePlugin sampleMixer "action" "ctx2" Json.null
      "dev").plugin.mVisibleContexts.atKey "ctx1" = samplePlugin.mVisibleContexts.atKey "ctx1" :=
  (registry_holds_exactly_the_visible_instances.1 samplePlugin sampleMixer "action" "ctx2"
    Json.null "dev").2 "ctx1" (by decide)

/-! ## The poll timer -/

theorem CallBackTimer.consistent_fresh : CallBackTimer.fresh.Consistent :=
  ⟨rfl, rfl, Or.inl ⟨rfl, rfl, rfl⟩⟩

theorem CallBackTimer.step_of_idle (s : CallBackTimer) (t : Nat) (h : s.loops = []) :
    s.step t = s := by
  unfold CallBackTimer.step
  rw [h]
  rfl

theorem CallBackTimer.consistent_step (s : CallBackTimer) (t : Nat) (h : s.Consistent) :
    (s.step t).Consistent := by
  obtain ⟨hterm, hblk, hidle | ⟨hex, t0, pc, hlt, hthd, hloops⟩⟩ := h
  · rw [CallBackTimer.step_of_idle s t hidle.2.2]
    exact ⟨hterm, hblk, Or.inl hidle⟩
  · obtain ⟨ex, thd, loops, launched, inv, term, blk⟩ := s
    simp only at hterm hblk hex hlt hthd hloops
    subst hterm hblk hex hthd hloops
    by_cases ht : t0 = t
    · subst ht
      cases pc
      · have hstep : CallBackTimer.step
            { _execute := true, _thd := some t0, loops := [{ id := t0, pc := LoopPc.atTest }],
              launched := launched, invocations := inv, terminated := false,
              blocked := false } t0 =
            { _execute := true, _thd := some t0, loops := [{ id := t0, pc := LoopPc.inBody }],
              launched := launched, invocations := inv + 1, terminated := false,
              blocked := false } := by
          simp [CallBackTimer.step]
        rw [hstep]
        exact ⟨rfl, rfl, Or.inr ⟨rfl, t0, LoopPc.inBody, hlt, rfl, rfl⟩⟩
      · have hstep : CallBackTimer.step
            { _execute := true, _thd := some t0, loops := [{ id := t0, pc := LoopPc.inBody }],
              launched := launched, invocations := inv, terminated := false,
              blocked := false } t0 =
            { _execute := true, _thd := some t0, loops := [{ id := t0, pc := LoopPc.atTest }],
              launched := launched, invocations := inv, terminated := false,
              blocked := false } := by
          simp [CallBackTimer.step]
        rw [hstep]
        exact ⟨rfl, rfl, Or.inr ⟨rfl, t0, LoopPc.atTest, hlt, rfl, rfl⟩⟩
    · have hstep : CallBackTimer.step
          { _execute := true, _thd := some t0, loops := [{ id := t0, pc := pc }],
            launched := launched, invocations := inv, terminated := false,
            blocked := false } t =
          { _execute := true, _thd := some t0, loops := [{ id := t0, pc := pc }],
            launched := launched, invocations := inv, terminated := false,
            blocked := false } := by
        simp [CallBackTimer.step, ht]
      rw [hstep]
      exact ⟨rfl, rfl, Or.inr ⟨rfl, t0, pc, hlt, rfl, rfl⟩⟩

theorem CallBackTimer.stop_idle (s : CallBackTimer) (h : s.Consistent) :
    s.stop.Consistent ∧ s.stop._execute = false ∧ s.stop._thd = none ∧ s.stop.loops = [] ∧
      s.stop.launched = s.launched := by
  obtain ⟨hterm, hblk, hidle | ⟨hex, t0, pc, hlt, hthd, hloops⟩⟩ := h
  · obtain ⟨ex, thd, loops, launched, inv, term, blk⟩ := s
    obtain ⟨hex, hthd, hloops⟩ := hidle
    simp only at hterm hblk hex hthd hloops
    subst hterm hblk hex hthd hloops
    exact ⟨⟨rfl, rfl, Or.inl ⟨rfl, rfl, rfl⟩⟩, rfl, rfl, rfl, rfl⟩
  · obtain ⟨ex, thd, loops, launched, inv, term, blk⟩ := s
    simp only at hterm hblk hex hlt hthd hloops
    subst hterm hblk hex hthd hloops
    cases pc
    · have hstop : CallBackTimer.stop
          { _execute := true, _thd := some t0, loops := [{ id := t0, pc := LoopPc.atTest }],
            launched := launched, invocations := inv, terminated := false,
            blocked := false } =
          { _execute := false, _thd := none, loops := [], launched := launched,
            invocations := inv, terminated := false, blocked := false } := by
        simp [CallBackTimer.stop, CallBackTimer.join, CallBackTimer.step]
      rw [hstop]
      exact ⟨⟨rfl, rfl, Or.inl ⟨rfl, rfl, rfl⟩⟩, rfl, rfl, rfl, rfl⟩
    · have hstop : CallBackTimer.stop
          { _execute := true, _thd := some t0, loops := [{ id := t0, pc := LoopPc.inBody }],
            launched := launched, invocations := inv, terminated := false,
            blocked := false } =
          { _execute := false, _thd := none, loops := [], launched := launched,
            invocations := inv, terminated := false, blocked := false } := by
        simp [CallBackTimer.stop, CallBackTimer.join, CallBackTimer.step]
      rw [hstop]
      exact ⟨⟨rfl, rfl, Or.inl ⟨rfl, rfl, rfl⟩⟩, rfl, rfl, rfl, rfl⟩

theorem CallBackTimer.start_of_idle (s : CallBackTimer) (hterm : s.terminated = false)
    (hblk : s.blocked = false) (hex : s._execute = false) (hthd : s._thd = none)
    (hloops : s.loops = []) :
    s.start.Consistent ∧ s.start.loops = [{ id := s.launched, pc := LoopPc.atTest }] := by
  obtain ⟨ex, thd, loops, launched, inv, term, blk⟩ := s
  simp only at hterm hblk hex hthd hloops
  subst hterm hblk hex hthd hloops
  refine ⟨⟨rfl, rfl, Or.inr ⟨rfl, launched, LoopPc.atTest, ?_, rfl, rfl⟩⟩, rfl⟩
  exact Nat.lt_succ_self launched

theorem CallBackTimer.start_launches_one (s : CallBackTimer) (h : s.Consistent) :
    s.start.Consistent ∧ s.start.loops = [{ id := s.launched, pc := LoopPc.atTest }] := by
  by_cases hex : s._execute = true
  · obtain ⟨hc, hex1, hthd1, hloops1, hlaunched⟩ := CallBackTimer.stop_idle s h
    have hstart : s.start = s.stop.start := by
      show CallBackTimer.start s = CallBackTimer.start (CallBackTimer.stop s)
      unfold CallBackTimer.start
      rw [if_pos hex, hex1]
      simp only [Bool.false_eq_true, if_false]
    rw [hstart, ← hlaunched]
    exact CallBackTimer.start_of_idle s.stop hc.1 hc.2.1 hex1 hthd1 hloops1
  · have hex0 : s._execute = false := by
      cases hs : s._execute
      · rfl
      · exact absurd hs hex
    obtain ⟨hterm, hblk, hidle | ⟨hex1, _⟩⟩ := h
    · exact CallBackTimer.start_of_idle s hterm hblk hex0 hidle.2.1 hidle.2.2
    · exact absurd hex1 hex

theorem TimerAction.consistent_apply (s : CallBackTimer) (a : TimerAction) (h : s.Consistent) :
    (a.apply s).Consistent := by
  cases a with
  | start => exact (CallBackTimer.start_launches_one s h).1
  | stop => exact (CallBackTimer.stop_idle s h).1
  | step t => exact CallBackTimer.consistent_step s t h

theorem runTimer_consistent (actions : List TimerAction) :
    ∀ s : CallBackTimer, s.Consistent → (runTimer s actions).Consistent := by
  induction actions with
  | nil => intro s h; exact h
  | cons a as ih =>
    intro s h
    exact ih (a.apply s) (TimerAction.consistent_apply s a h)

theorem runTimer_append (s : CallBackTimer) (as bs : List TimerAction) :
    runTimer s (as ++ bs) = runTimer (runTimer s as) bs := by
  unfold runTimer
  rw [List.foldl_append]

theorem runTimer_steps_of_idle (steps : List Nat) (s : CallBackTimer) (h : s.loops = []) :
    runTimer s (steps.map TimerAction.step) = s := by
  induction steps with
  | nil => rfl
  | cons t ts ih =>
    show runTimer (s.step t) (ts.map TimerAction.step) = s
    rw [CallBackTimer.step_of_idle s t h]
    exact ih

/-- C8: after any sequence of `start` and `stop` calls on a fresh timer, interleaved in any
way with steps of the loop threads, at most one loop thread is live, `start` never
assigned to a joinable `_thd` (no `std::terminate`) and no `join` is stuck; right after a
`start` exactly one loop is live and it is the thread that this `start` launched, so a
loop of an earlier `start` has returned; right after a `stop` no loop is live, and
whatever the loop threads are scheduled to do afterwards the callback is not invoked
again. -/
theorem callBackTimer_never_two_loops (actions : List TimerAction) :
    (runTimer CallBackTimer.fresh actions).loops.length ≤ 1 ∧
    (runTimer CallBackTimer.fresh actions).terminated = false ∧
    (runTimer CallBackTimer.fresh actions).blocked = false ∧
    (runTimer CallBackTimer.fresh (actions ++ [TimerAction.start])).loops =
      [{ id := (runTimer CallBackTimer.fresh actions).launched, pc := LoopPc.atTest }] ∧
    (∀ l ∈ (runTimer CallBackTimer.fresh actions).loops,
      l.id < (runTimer CallBackTimer.fresh actions).launched) ∧
    (runTimer CallBackTimer.fresh (actions ++ [TimerAction.stop])).loops = [] ∧
    (∀ steps : List Nat,
      (runTimer CallBackTimer.fresh
          (actions ++ [TimerAction.stop] ++ steps.map TimerAction.step)).invocations =
        (runTimer CallBackTimer.fresh (actions ++ [TimerAction.stop])).invocations ∧
      (runTimer CallBackTimer.fresh
          (actions ++ [TimerAction.stop] ++ steps.map TimerAction.step)).loops = []) := by
  have hc := runTimer_consistent actions CallBackTimer.fresh CallBackTimer.consistent_fresh
  have hstop : (runTimer CallBackTimer.fresh (actions ++ [TimerAction.stop])).loops = [] := by
    rw [runTimer_append]
    exact (CallBackTimer.stop_idle _ hc).2.2.2.1
  refine ⟨?_, hc.1, hc.2.1, ?_, ?_, hstop, ?_⟩
  · obtain ⟨_, _, hidle | ⟨_, t, pc, _, _, hloops⟩⟩ := hc
    · rw [hidle.2.2]; exact Nat.zero_le 1
    · rw [hloops]; exact Nat.le_refl 1
  · rw [runTimer_append]
    exact (CallBackTimer.start_launches_one _ hc).2
  · intro l hl
    obtain ⟨_, _, hidle | ⟨_, t, pc, hlt, _, hloops⟩⟩ := hc
    · rw [hidle.2.2] at hl
      cases hl
    · rw [hloops, List.mem_singleton] at hl
      rw [hl]
      exact hlt
  · intro steps
    rw [runTimer_append, runTimer_steps_of_idle steps _ hstop]
    exact ⟨rfl, hstop⟩

/-- Witness for C8: after the first `start` the one live loop is thread 0, launched by it. -/
theorem callBackTimer_never_two_loops_witness :
    (0 : Nat) < (runTimer CallBackTimer.fresh [TimerAction.start]).launched :=
  (callBackTimer_never_two_loops [TimerAction.start]).2.2.2.2.1
    { id := 0, pc := LoopPc.atTest } (by decide)

end StreamDeckVoiceMeeter
